import Mathlib

/-!
Verification of the frequency-based word-list pipeline of `lets-have-a-word`
(`src/scripts/generate-frequency-dictionaries.py` and
`src/scripts/find-missing-words.py`).

Embedding conventions:
* A Python string is modelled as `List Char`; `wd s` abbreviates the character
  list of a Lean string literal.
* Zipf frequency scores (floats such as `2.96` in the source) are modelled in
  exact hundredths as `Int` (`2.96 ↦ 296`).  Every float comparison in the
  source compares a looked-up score against one of the fixed constants
  `2.0`, `2.5`, `3.0`, so this scaling is order-faithful.
* The external `wordfreq.zipf_frequency` lookup is an explicit parameter
  `zipf : List Char → Int`; `get_frequency_score` lowercases before the
  lookup, as the source does.
* Python `list.sort` is a stable sort; here every sort key used by the source
  is a total, antisymmetric order under which elements with equal keys are
  themselves equal (the `(−score, word)` key determines the pair, because the
  score of a pair is always the score of its word), so `List.insertionSort`
  by the corresponding relation computes the same list.
* `set(...)` results are `Finset` or are observed through `List.dedup`.
-/

namespace Word5

def wd (s : String) : List Char := s.data

/-! ### Configuration (generate-frequency-dictionaries.py, lines 42-49) -/

def MIN_ZIPF_GUESS : Int := 250
def MIN_ZIPF_ANSWER : Int := 300
def SPICE_ZIPF_THRESHOLD : Int := 200
def TARGET_GUESS_SIZE : Nat := 7000
def TARGET_ANSWER_SIZE : Nat := 3500

/-! ### Blacklists (lines 56-83) -/

def OFFENSIVE_BLACKLIST : List (List Char) :=
  [wd "SLUTS", wd "WHORE", wd "BITCH", wd "COCKS", wd "CUNTS", wd "FUCKS", wd "SHITS",
   wd "PRICK", wd "PUSSY", wd "TARDS", wd "BITTY", wd "CRAPS", wd "HELLS"]

def PROPER_NOUN_BLACKLIST : List (List Char) :=
  [wd "JESUS", wd "CHINA", wd "INDIA", wd "SPAIN", wd "ITALY", wd "PARIS", wd "TOKYO",
   wd "JAMES", wd "JONES", wd "SMITH", wd "BROWN", wd "DAVIS", wd "MARCH", wd "APRIL",
   wd "ALICE", wd "BOBBY", wd "KAREN", wd "MASON", wd "LOGAN", wd "LUCAS", wd "HENRY",
   wd "WYATT", wd "ISAAC", wd "OSCAR", wd "ELLIE", wd "HAZEL", wd "CLARA", wd "ABBIE",
   wd "TEXAS", wd "ROMAN", wd "ISRAEL", wd "JUDAH", wd "JUDAS", wd "MOSES", wd "AARON",
   wd "PETER", wd "SIMON", wd "MENIL", wd "BASEL", wd "DAVOS", wd "QATAR", wd "DUBAI"]

def SCRABBLE_GARBAGE : List (List Char) :=
  [wd "AALII", wd "AAHED", wd "AARGH", wd "AARTI", wd "ABACA", wd "ABACI", wd "ABAFT",
   wd "ABAHT", wd "ABAKA", wd "ABAMP", wd "ABAND", wd "ABASK", wd "ABAYA", wd "ABCEE",
   wd "ABEAM", wd "ABEAR", wd "ABELE", wd "ABENG", wd "ABJAD", wd "ABJUD", wd "ABLET",
   wd "ABLOW", wd "ABMHO", wd "ABNET", wd "ABOHM", wd "ABOIL", wd "ABOMA", wd "ABOON",
   wd "XEBEC", wd "XEMES", wd "XENIA", wd "XENIC", wd "XYLAN", wd "XYLEM", wd "XYLIC",
   wd "XYLOL", wd "XYLYL", wd "XYSTI", wd "XYSTS", wd "YEXED", wd "YEXES", wd "QANAT",
   wd "QADIS", wd "QAIDS", wd "QAJAQ", wd "QAPHS", wd "QAPIK", wd "QIBLA", wd "QINAH",
   wd "QINTA", wd "QIRSH", wd "QOPHS", wd "QORMA", wd "ZAYIN", wd "ZEALS", wd "ZEBEC",
   wd "ZEBUB", wd "ZIBET", wd "ZIFFS", wd "ZIGAN", wd "ZILAS", wd "ZOMBI", wd "ZONAE",
   wd "ZONDA", wd "ZOOEA", wd "ZOOID", wd "ZOOKS", wd "ZOOMY", wd "ZOONS", wd "ZOOTY"]

/-! ### Helper functions (lines 89-178) -/

def isUpperAlpha (c : Char) : Bool := decide ('A' ≤ c ∧ c ≤ 'Z')

def isLowerAlpha (c : Char) : Bool := decide ('a' ≤ c ∧ c ≤ 'z')

/-- Python `str.upper()` restricted to the ASCII words this pipeline handles. -/
def pyUpper (word : List Char) : List Char := word.map Char.toUpper

/-- Python `str.lower()` restricted to the ASCII words this pipeline handles. -/
def pyLower (word : List Char) : List Char := word.map Char.toLower

/-- Python `word.endswith(suf)`. -/
def pyEndsWith (word suf : List Char) : Bool := suf.isSuffixOf word

/-- The characters captured by the greedy `re.search` for `\x5b([\s\S]*)\x5d`:
everything strictly between the matched `[` and the last `]` of the text.
`searchBracketArray` below scans for the leftmost viable `[`. -/
def upToLastRBracket (cs : List Char) : List Char :=
  ((cs.reverse.dropWhile fun c => c ≠ ']').drop 1).reverse

/-- `re.search` for a bracketed array: the match starts at the leftmost `[`
that has some `]` after it, and the greedy group extends to the last `]`. -/
def searchBracketArray : List Char → Option (List Char)
  | [] => none
  | c :: rest =>
      if c = '[' ∧ rest.contains ']' then some (upToLastRBracket rest)
      else searchBracketArray rest

/-- `re.findall` for `"([A-Z]\x7b5\x7d)"` : non-overlapping, leftmost-first
extraction of double-quoted five-uppercase-letter tokens.  Every step consumes
at least one character, so running with the input length as fuel computes the
full scan; the fuel only makes the recursion structural. -/
def findQuotedAux : Nat → List Char → List (List Char)
  | 0, _ => []
  | _, [] => []
  | fuel + 1, '"' :: rest =>
    match rest with
    | a :: b :: c :: d :: e :: '"' :: rest2 =>
      if isUpperAlpha a && isUpperAlpha b && isUpperAlpha c &&
         isUpperAlpha d && isUpperAlpha e then
        [a, b, c, d, e] :: findQuotedAux fuel rest2
      else findQuotedAux fuel rest
    | _ => findQuotedAux fuel rest
  | fuel + 1, _ :: rest => findQuotedAux fuel rest

def findQuotedWords (cs : List Char) : List (List Char) :=
  findQuotedAux cs.length cs

/-- `load_word_list_from_ts` (lines 89-103): raises `ValueError` when no
bracketed array is found, otherwise returns the set of extracted words. -/
def load_word_list_from_ts (content : List Char) : Except String (Finset (List Char)) :=
  match searchBracketArray content with
  | none => Except.error "Could not parse"
  | some arr => Except.ok (findQuotedWords arr).toFinset

/-- `load_all_five_letter_words_from_wordfreq` (lines 105-114): keep a corpus
token iff it has length 5 and matches `^[a-z]\x7b5\x7d$`, then uppercase; the
result is a set. -/
def load_all_five_letter_words_from_wordfreq (corpus : List (List Char)) :
    Finset (List Char) :=
  ((corpus.filter fun w => w.length == 5 && w.all isLowerAlpha).map pyUpper).toFinset

def is_offensive (word : List Char) : Bool := decide (word ∈ OFFENSIVE_BLACKLIST)

def is_proper_noun (word : List Char) : Bool := decide (word ∈ PROPER_NOUN_BLACKLIST)

def is_scrabble_garbage (word : List Char) : Bool := decide (word ∈ SCRABBLE_GARBAGE)

/-- `get_frequency_score` (lines 137-140): wordfreq expects lowercase. -/
def get_frequency_score (zipf : List Char → Int) (word : List Char) : Int :=
  zipf (pyLower word)

def non_plural_words : List (List Char) :=
  [wd "BRASS", wd "CHESS", wd "CLASS", wd "CROSS", wd "DRESS", wd "GLASS", wd "GRASS",
   wd "GUESS", wd "BLESS", wd "BLISS", wd "ABYSS", wd "TRUSS", wd "FLOSS", wd "GLOSS",
   wd "ALIAS", wd "ATLAS", wd "BASIS", wd "OASIS", wd "VIRUS", wd "FOCUS", wd "GENUS",
   wd "MINUS", wd "NEXUS", wd "BONUS", wd "GROSS", wd "LOSS", wd "MASS", wd "MISS",
   wd "PASS", wd "BOSS", wd "TOSS", wd "KISS", wd "PRESS", wd "STRESS", wd "CHAOS",
   wd "CRASS"]

/-- `is_likely_plural` (lines 142-178).  The loop over the four protected
endings returns `False` as soon as any of them matches, so it is a
disjunction; the stem-frequency floor is the literal `2.0` of the source. -/
def is_likely_plural (zipf : List Char → Int) (word : List Char) : Bool :=
  if ! pyEndsWith word (wd "S") then false
  else if pyEndsWith word (wd "SS") || pyEndsWith word (wd "US") ||
          pyEndsWith word (wd "IS") || pyEndsWith word (wd "AS") then false
  else if word ∈ non_plural_words then false
  else if word.dropLast.length = 4 then
    if get_frequency_score zipf word.dropLast > 200 then true else false
  else false

/-! ### Filtering passes (lines 184-316) -/

inductive RejectReason
  | OFFENSIVE | PROPER_NOUN | GARBAGE | TOO_RARE | PLURAL
deriving DecidableEq

/-- The chain of `continue`s in the guess-word loop (lines 215-234): a word is
dropped with the reason of the first test that fires. -/
def guessClassify (word : List Char) (freq : Int) : Option RejectReason :=
  if is_offensive word then some RejectReason.OFFENSIVE
  else if is_proper_noun word then some RejectReason.PROPER_NOUN
  else if is_scrabble_garbage word then some RejectReason.GARBAGE
  else if freq < MIN_ZIPF_GUESS then some RejectReason.TOO_RARE
  else none

/-- The chain of `continue`s in the answer-word loop (lines 282-298): the
plural test runs first; a sub-threshold word is only dropped when it is also
below the spice threshold. -/
def answerClassify (zipf : List Char → Int) (word : List Char) (freq : Int) :
    Option RejectReason :=
  if is_likely_plural zipf word then some RejectReason.PLURAL
  else if freq < MIN_ZIPF_ANSWER then
    if freq < SPICE_ZIPF_THRESHOLD then some RejectReason.TOO_RARE else none
  else none

/-- The sort key `lambda x: (-x[1], x[0])` of lines 237 and 301, read as a
relation: score descending, ties broken by word ascending. -/
abbrev rankRel (a b : List Char × Int) : Prop :=
  b.2 < a.2 ∨ (a.2 = b.2 ∧ a.1 ≤ b.1)

def sortRanked (l : List (List Char × Int)) : List (List Char × Int) :=
  l.insertionSort rankRel

/-- Python `sorted` / `list.sort()` on words (default ascending order). -/
def pySorted (l : List (List Char)) : List (List Char) :=
  l.insertionSort (· ≤ ·)

/-- Lines 236-243 and 300-307, identical in both passes: sort by
`(-score, word)`, take the first `n`, then re-sort those alphabetically. -/
def rank_and_truncate (valid : List (List Char × Int)) (n : Nat) : List (List Char) :=
  pySorted (((sortRanked valid).take n).map Prod.fst)

/-- `generate_guess_words` (lines 184-254), as a function of the iteration
order of `source_words`. -/
def generate_guess_words (zipf : List Char → Int) (source_words : List (List Char)) :
    List (List Char) :=
  rank_and_truncate
    ((source_words.map fun w => (w, get_frequency_score zipf w)).filter
      fun p => (guessClassify p.1 p.2).isNone)
    TARGET_GUESS_SIZE

/-- `generate_answer_words` (lines 256-316): the candidate pool is the
finished guess list. -/
def generate_answer_words (zipf : List Char → Int) (guess_words : List (List Char)) :
    List (List Char) :=
  rank_and_truncate
    ((guess_words.map fun w => (w, get_frequency_score zipf w)).filter
      fun p => (answerClassify zipf p.1 p.2).isNone)
    TARGET_ANSWER_SIZE

/-- The `rejected[...] += 1` counters of the guess pass, as a function from
reason to count. -/
def guess_rejected_count (zipf : List Char → Int) (source_words : List (List Char))
    (r : RejectReason) : Nat :=
  ((source_words.map fun w => (w, get_frequency_score zipf w)).filter
    fun p => decide (guessClassify p.1 p.2 = some r)).length

/-- The `rejected[...] += 1` counters of the answer pass. -/
def answer_rejected_count (zipf : List Char → Int) (guess_words : List (List Char))
    (r : RejectReason) : Nat :=
  ((guess_words.map fun w => (w, get_frequency_score zipf w)).filter
    fun p => decide (answerClassify zipf p.1 p.2 = some r)).length

/-! ### Validation (lines 318-407) and main (lines 413-446) -/

/-- The regex `^[A-Z]\x7b5\x7d$` of line 326. -/
def wordFormatOk (w : List Char) : Bool := w.length == 5 && w.all isUpperAlpha

/-- The five explicit garbage words re-checked at line 385. -/
def garbage_check_words : List (List Char) :=
  [wd "AALII", wd "AARGH", wd "XYSTI", wd "YEXED", wd "QANAT"]

/-- `validate_dictionaries` (lines 318-398): the accumulated `errors` list, in
source order.  `print`-only diagnostics (the CRASS-in-answers warning at line
361 and the normal-words warning at line 380) contribute no error.  The run
raises iff this list is non-empty. -/
def validate_dictionaries (guess_words answer_words : List (List Char)) : List String :=
  ((guess_words ++ answer_words).filterMap fun w =>
      if wordFormatOk w then none else some ("Invalid format: " ++ String.mk w))
  ++ (if guess_words.dedup.length ≠ guess_words.length then
        ["GUESS_WORDS_CLEAN has duplicates"] else [])
  ++ (if answer_words.dedup.length ≠ answer_words.length then
        ["ANSWER_WORDS_EXPANDED has duplicates"] else [])
  ++ (answer_words.filterMap fun w =>
      if w ∈ guess_words then none
      else some ("Answer word " ++ String.mk w ++ " not in guess words"))
  ++ (if guess_words ≠ pySorted guess_words then
        ["GUESS_WORDS_CLEAN not alphabetically sorted"] else [])
  ++ (if answer_words ≠ pySorted answer_words then
        ["ANSWER_WORDS_EXPANDED not alphabetically sorted"] else [])
  ++ (if wd "CRASS" ∈ guess_words then [] else ["CRASS missing from GUESS_WORDS_CLEAN"])
  ++ (if wd "MENIL" ∈ guess_words then ["MENIL present in GUESS_WORDS_CLEAN"] else [])
  ++ (if wd "MENIL" ∈ answer_words then ["MENIL present in ANSWER_WORDS_EXPANDED"] else [])
  ++ (if garbage_check_words.filter (fun w => decide (w ∈ guess_words)) ≠ [] then
        ["Garbage words present"] else [])

/-- `main` (lines 413-446) from the point where the source set is in hand:
generate both lists, validate, and only on success write the two output
files (modelled as returning their contents). -/
def main_run (zipf : List Char → Int) (source_words : List (List Char)) :
    Except String (List (List Char) × List (List Char)) :=
  let guess_words := generate_guess_words zipf source_words
  let answer_words := generate_answer_words zipf guess_words
  if validate_dictionaries guess_words answer_words = [] then
    Except.ok (guess_words, answer_words)
  else Except.error "Validation failed"

/-! ### find-missing-words.py (lines 232-268) -/

def REJECT_WORDS : List (List Char) :=
  [wd "SLUTS", wd "WHORE", wd "BITCH", wd "CUNTS", wd "FUCKS", wd "SHITS", wd "NIGER",
   wd "CHINA", wd "INDIA", wd "SPAIN", wd "ITALY", wd "JAPAN", wd "KOREA", wd "TEXAS",
   wd "JAMES", wd "DAVID", wd "SARAH", wd "EMILY", wd "MARIA",
   wd "AALII", wd "AARGH", wd "ADIEU"]

def CONSONANTS : List Char :=
  ['B', 'C', 'D', 'F', 'G', 'H', 'J', 'K', 'L', 'M', 'N', 'P', 'Q', 'R', 'S', 'T',
   'V', 'W', 'X', 'Y', 'Z']

def VOWELS : List Char := ['A', 'E', 'I', 'O', 'U']

/-- `is_valid_candidate` (lines 247-268): uppercase, then length, alphabetic,
the two shape-based reject patterns (all consonants / all vowels, exactly the
regexes of `REJECT_PATTERNS`), and the reject list.  Python `str.isalpha` is
modelled on the ASCII range the candidates use. -/
def is_valid_candidate (word : List Char) : Bool :=
  if (pyUpper word).length ≠ 5 then false
  else if ! (pyUpper word).all Char.isAlpha then false
  else if (pyUpper word).all (fun c => decide (c ∈ CONSONANTS)) ||
          (pyUpper word).all (fun c => decide (c ∈ VOWELS)) then false
  else if pyUpper word ∈ REJECT_WORDS then false
  else true

/-! ### Order-theoretic facts about the sort key, and decidability glue -/

instance {ε α : Type} [DecidableEq ε] [DecidableEq α] : DecidableEq (Except ε α)
  | Except.error e₁, Except.error e₂ =>
      decidable_of_iff (e₁ = e₂) ⟨fun h => h ▸ rfl, fun h => by injection h⟩
  | Except.error _, Except.ok _ => isFalse fun h => Except.noConfusion h
  | Except.ok _, Except.error _ => isFalse fun h => Except.noConfusion h
  | Except.ok a₁, Except.ok a₂ =>
      decidable_of_iff (a₁ = a₂) ⟨fun h => h ▸ rfl, fun h => by injection h⟩

instance : IsTotal (List Char × Int) rankRel :=
  ⟨by
    rintro ⟨w₁, s₁⟩ ⟨w₂, s₂⟩
    rcases lt_trichotomy s₁ s₂ with h | h | h
    · exact Or.inr (Or.inl h)
    · rcases le_total w₁ w₂ with hw | hw
      · exact Or.inl (Or.inr ⟨h, hw⟩)
      · exact Or.inr (Or.inr ⟨h.symm, hw⟩)
    · exact Or.inl (Or.inl h)⟩

instance : IsTrans (List Char × Int) rankRel :=
  ⟨by
    rintro ⟨w₁, s₁⟩ ⟨w₂, s₂⟩ ⟨w₃, s₃⟩ (h₁ | ⟨hs₁, hw₁⟩) (h₂ | ⟨hs₂, hw₂⟩)
    · exact Or.inl (h₂.trans h₁)
    · exact Or.inl (hs₂ ▸ h₁)
    · exact Or.inl (hs₁ ▸ h₂)
    · exact Or.inr ⟨hs₁.trans hs₂, hw₁.trans hw₂⟩⟩

instance : IsAntisymm (List Char × Int) rankRel :=
  ⟨by
    rintro ⟨w₁, s₁⟩ ⟨w₂, s₂⟩ (h₁ | ⟨hs₁, hw₁⟩) (h₂ | ⟨hs₂, hw₂⟩)
    · exact absurd h₂ (lt_asymm h₁)
    · exact absurd h₁ (hs₂ ▸ lt_irrefl s₂)
    · exact absurd h₂ (hs₁ ▸ lt_irrefl s₁)
    · simp only [Prod.mk.injEq]
      exact ⟨le_antisymm hw₁ hw₂, hs₁⟩⟩

/-! ### Concrete frequency resources used by witnesses -/

/-- A resource on which every word is common (Zipf 4.0). -/
def zipfHigh : List Char → Int := fun _ => 400

/-- A resource on which the stem "bong" is common (Zipf 3.0) and everything
else rare (Zipf 1.0). -/
def zipfBong : List Char → Int := fun w => if w = wd "bong" then 300 else 100

/-! ### Sorting helper lemmas -/

theorem insertionSort_eq_of_perm {α : Type} (r : α → α → Prop) [DecidableRel r]
    [IsTotal α r] [IsTrans α r] [IsAntisymm α r] {l₁ l₂ : List α} (h : l₁.Perm l₂) :
    List.insertionSort r l₁ = List.insertionSort r l₂ :=
  List.eq_of_perm_of_sorted
    (((List.perm_insertionSort r l₁).trans h).trans (List.perm_insertionSort r l₂).symm)
    (List.sorted_insertionSort r l₁) (List.sorted_insertionSort r l₂)

theorem exists_pair_of_mem_rank_and_truncate {v : List (List Char × Int)} {n : Nat}
    {w : List Char} (h : w ∈ rank_and_truncate v n) : ∃ s : Int, (w, s) ∈ v := by
  unfold rank_and_truncate pySorted at h
  have h1 := (List.perm_insertionSort (α := List Char) (· ≤ ·) _).mem_iff.mp h
  obtain ⟨p, hp, hfp⟩ := List.mem_map.mp h1
  subst hfp
  have h2 : p ∈ sortRanked v := List.Sublist.mem hp (List.take_sublist n _)
  have h3 : p ∈ v := (List.perm_insertionSort rankRel v).mem_iff.mp h2
  exact ⟨p.2, by rwa [Prod.mk.eta]⟩

theorem rank_and_truncate_perm_inv {v₁ v₂ : List (List Char × Int)} (n : Nat)
    (h : v₁.Perm v₂) : rank_and_truncate v₁ n = rank_and_truncate v₂ n := by
  unfold rank_and_truncate sortRanked
  rw [insertionSort_eq_of_perm rankRel h]

/-! ### Claims -/

/-- C1: every word of the answer list derived from a guess list `G` is an
element of `G`: the derivation stage only filters and truncates the pairs
built from `G`, so the subset invariant holds by construction. -/
theorem answer_list_subset_of_guess_list (zipf : List Char → Int)
    (guess_words : List (List Char)) (w : List Char)
    (hw : w ∈ generate_answer_words zipf guess_words) : w ∈ guess_words := by
  unfold generate_answer_words at hw
  obtain ⟨s, hs⟩ := exists_pair_of_mem_rank_and_truncate hw
  have h1 := (List.mem_filter.mp hs).1
  obtain ⟨u, hu, heq⟩ := List.mem_map.mp h1
  injection heq with h₂ h₃
  subst h₂
  exact hu

/-- Witness for C1: a concrete word of a concrete derived answer list. -/
theorem answer_list_subset_of_guess_list_witness : wd "OTHER" ∈ [wd "OTHER"] :=
  answer_list_subset_of_guess_list zipfHigh [wd "OTHER"] (wd "OTHER") (by decide)

/-- C3: the ranking-and-truncation step used identically by both passes is
the two-phase procedure: phase one orders the surviving candidates by score
descending with ties broken by word ascending (the relation `rankRel`), the
first `n` of that order are selected, and phase two re-sorts exactly those
selected words alphabetically ascending for the output. -/
theorem ranking_two_phase_sort (valid : List (List Char × Int)) (n : Nat) :
    List.Sorted rankRel (sortRanked valid) ∧
    (sortRanked valid).Perm valid ∧
    List.Sorted (· ≤ ·) (rank_and_truncate valid n) ∧
    (rank_and_truncate valid n).Perm (((sortRanked valid).take n).map Prod.fst) ∧
    (∀ (zipf : List Char → Int) (source_words : List (List Char)),
      generate_guess_words zipf source_words =
        rank_and_truncate
          ((source_words.map fun w => (w, get_frequency_score zipf w)).filter
            fun p => (guessClassify p.1 p.2).isNone) TARGET_GUESS_SIZE) ∧
    (∀ (zipf : List Char → Int) (guess_words : List (List Char)),
      generate_answer_words zipf guess_words =
        rank_and_truncate
          ((guess_words.map fun w => (w, get_frequency_score zipf w)).filter
            fun p => (answerClassify zipf p.1 p.2).isNone) TARGET_ANSWER_SIZE) :=
  ⟨List.sorted_insertionSort rankRel valid,
   List.perm_insertionSort rankRel valid,
   List.sorted_insertionSort _ _,
   List.perm_insertionSort _ _,
   fun _ _ => rfl,
   fun _ _ => rfl⟩

/-- C8: the pipeline is deterministic and independent of the iteration order
of the source set: permuting the order in which the candidate words are
enumerated leaves both generated lists unchanged, because the sort key
`(-score, word)` resolves every tie. -/
theorem pipeline_iteration_order_independent (zipf : List Char → Int)
    (l₁ l₂ : List (List Char)) (h : l₁.Perm l₂) :
    generate_guess_words zipf l₁ = generate_guess_words zipf l₂ ∧
    generate_answer_words zipf l₁ = generate_answer_words zipf l₂ :=
  ⟨rank_and_truncate_perm_inv _ (List.Perm.filter _ (List.Perm.map _ h)),
   rank_and_truncate_perm_inv _ (List.Perm.filter _ (List.Perm.map _ h))⟩

/-- Witness for C8 at a concrete two-element transposition. -/
theorem pipeline_iteration_order_independent_witness :
    generate_guess_words zipfHigh [wd "CRASS", wd "OTHER"] =
      generate_guess_words zipfHigh [wd "OTHER", wd "CRASS"] :=
  (pipeline_iteration_order_independent zipfHigh [wd "CRASS", wd "OTHER"]
    [wd "OTHER", wd "CRASS"] (List.Perm.swap (wd "OTHER") (wd "CRASS") [])).1

/-! ### Validator helper lemmas: each failing check contributes its message -/

theorem validate_mem_format {g a : List (List Char)} {w : List Char}
    (hw : w ∈ g ++ a) (h : wordFormatOk w = false) :
    ("Invalid format: " ++ String.mk w) ∈ validate_dictionaries g a := by
  have hmem : ("Invalid format: " ++ String.mk w) ∈
      (g ++ a).filterMap (fun u => if wordFormatOk u then none
        else some ("Invalid format: " ++ String.mk u)) :=
    List.mem_filterMap.mpr ⟨w, hw, by rw [h]; rfl⟩
  unfold validate_dictionaries
  exact List.mem_append_left _ (List.mem_append_left _ (List.mem_append_left _
    (List.mem_append_left _ (List.mem_append_left _ (List.mem_append_left _
    (List.mem_append_left _ (List.mem_append_left _ (List.mem_append_left _ hmem))))))))

theorem validate_mem_dup_guess {g a : List (List Char)}
    (h : g.dedup.length ≠ g.length) :
    "GUESS_WORDS_CLEAN has duplicates" ∈ validate_dictionaries g a := by
  simp [validate_dictionaries, h]

theorem validate_mem_dup_answer {g a : List (List Char)}
    (h : a.dedup.length ≠ a.length) :
    "ANSWER_WORDS_EXPANDED has duplicates" ∈ validate_dictionaries g a := by
  simp [validate_dictionaries, h]

theorem validate_mem_not_subset {g a : List (List Char)} {w : List Char}
    (hw : w ∈ a) (h : w ∉ g) :
    ("Answer word " ++ String.mk w ++ " not in guess words") ∈ validate_dictionaries g a := by
  have hmem : ("Answer word " ++ String.mk w ++ " not in guess words") ∈
      a.filterMap (fun u => if u ∈ g then none
        else some ("Answer word " ++ String.mk u ++ " not in guess words")) :=
    List.mem_filterMap.mpr ⟨w, hw, by rw [if_neg h]⟩
  unfold validate_dictionaries
  exact List.mem_append_left _ (List.mem_append_left _ (List.mem_append_left _
    (List.mem_append_left _ (List.mem_append_left _ (List.mem_append_left _
    (List.mem_append_right _ hmem))))))

theorem validate_mem_unsorted_guess {g a : List (List Char)}
    (h : g ≠ pySorted g) :
    "GUESS_WORDS_CLEAN not alphabetically sorted" ∈ validate_dictionaries g a := by
  simp [validate_dictionaries, h]

theorem validate_mem_unsorted_answer {g a : List (List Char)}
    (h : a ≠ pySorted a) :
    "ANSWER_WORDS_EXPANDED not alphabetically sorted" ∈ validate_dictionaries g a := by
  simp [validate_dictionaries, h]

theorem validate_mem_crass {g a : List (List Char)} (h : wd "CRASS" ∉ g) :
    "CRASS missing from GUESS_WORDS_CLEAN" ∈ validate_dictionaries g a := by
  simp [validate_dictionaries, h]

theorem validate_mem_menil_guess {g a : List (List Char)} (h : wd "MENIL" ∈ g) :
    "MENIL present in GUESS_WORDS_CLEAN" ∈ validate_dictionaries g a := by
  simp [validate_dictionaries, h]

theorem validate_mem_menil_answer {g a : List (List Char)} (h : wd "MENIL" ∈ a) :
    "MENIL present in ANSWER_WORDS_EXPANDED" ∈ validate_dictionaries g a := by
  simp [validate_dictionaries, h]

theorem validate_mem_garbage {g a : List (List Char)}
    (h : garbage_check_words.filter (fun u => decide (u ∈ g)) ≠ []) :
    "Garbage words present" ∈ validate_dictionaries g a := by
  simp [validate_dictionaries, h]

theorem main_run_error_of_validate {zipf : List Char → Int}
    {source_words : List (List Char)}
    (h : validate_dictionaries (generate_guess_words zipf source_words)
      (generate_answer_words zipf (generate_guess_words zipf source_words)) ≠ []) :
    main_run zipf source_words = Except.error "Validation failed" := by
  simp [main_run, h]

/-- C2: a failing invariant check makes the run fatal — `main` receives the
raised error and writes no output — and the validator accumulates a message
for every failing check (format, duplicates, subset, sort order, named
regression words, garbage words) rather than stopping at the first. -/
theorem validation_fatal_reports_all_failures (zipf : List Char → Int)
    (source_words g a : List (List Char)) (w : List Char) :
    (validate_dictionaries (generate_guess_words zipf source_words)
        (generate_answer_words zipf (generate_guess_words zipf source_words)) ≠ [] →
      main_run zipf source_words = Except.error "Validation failed") ∧
    (w ∈ g ++ a → wordFormatOk w = false →
      ("Invalid format: " ++ String.mk w) ∈ validate_dictionaries g a) ∧
    (g.dedup.length ≠ g.length →
      "GUESS_WORDS_CLEAN has duplicates" ∈ validate_dictionaries g a) ∧
    (a.dedup.length ≠ a.length →
      "ANSWER_WORDS_EXPANDED has duplicates" ∈ validate_dictionaries g a) ∧
    (w ∈ a → w ∉ g →
      ("Answer word " ++ String.mk w ++ " not in guess words") ∈ validate_dictionaries g a) ∧
    (g ≠ pySorted g →
      "GUESS_WORDS_CLEAN not alphabetically sorted" ∈ validate_dictionaries g a) ∧
    (a ≠ pySorted a →
      "ANSWER_WORDS_EXPANDED not alphabetically sorted" ∈ validate_dictionaries g a) ∧
    (wd "CRASS" ∉ g →
      "CRASS missing from GUESS_WORDS_CLEAN" ∈ validate_dictionaries g a) ∧
    (wd "MENIL" ∈ g →
      "MENIL present in GUESS_WORDS_CLEAN" ∈ validate_dictionaries g a) ∧
    (wd "MENIL" ∈ a →
      "MENIL present in ANSWER_WORDS_EXPANDED" ∈ validate_dictionaries g a) ∧
    (garbage_check_words.filter (fun u => decide (u ∈ g)) ≠ [] →
      "Garbage words present" ∈ validate_dictionaries g a) :=
  ⟨fun h => main_run_error_of_validate h,
   fun hw h => validate_mem_format hw h,
   validate_mem_dup_guess,
   validate_mem_dup_answer,
   fun hw h => validate_mem_not_subset hw h,
   validate_mem_unsorted_guess,
   validate_mem_unsorted_answer,
   validate_mem_crass,
   validate_mem_menil_guess,
   validate_mem_menil_answer,
   validate_mem_garbage⟩

/-- Witness for C2: on the empty source the generated lists are empty, the
CRASS regression check fails, and the run aborts; and a list containing
MENIL is reported. -/
theorem validation_fatal_reports_all_failures_witness :
    main_run zipfHigh [] = Except.error "Validation failed" ∧
    "MENIL present in GUESS_WORDS_CLEAN" ∈ validate_dictionaries [wd "MENIL"] [] :=
  ⟨(validation_fatal_reports_all_failures zipfHigh [] [] [] []).1 (by decide),
   (validation_fatal_reports_all_failures zipfHigh [] [wd "MENIL"] []
      (wd "MENIL")).2.2.2.2.2.2.2.2.1 (by decide)⟩

/-- C4 counterexample: the must-be-present word CRASS is absent from the
answer list, yet validation passes (the source only warns in that case), so
absence of a must-be-present word from the answer list is not fatal. -/
theorem crass_absent_from_answer_list_passes :
    wd "CRASS" ∉ ([] : List (List Char)) ∧
    validate_dictionaries [wd "CRASS"] [] = [] := by decide

/-- C4 amended: the must-be-present check is fatal for the guess list only
(CRASS absent from the guess list fails validation, while CRASS absent from
the answer list merely warns); the must-be-absent word MENIL is enforced
fatally for both lists independently; any validation failure aborts the run
before output is written. -/
theorem named_regression_words_enforced (g a : List (List Char)) :
    (wd "CRASS" ∉ g → validate_dictionaries g a ≠ []) ∧
    (wd "MENIL" ∈ g → validate_dictionaries g a ≠ []) ∧
    (wd "MENIL" ∈ a → validate_dictionaries g a ≠ []) ∧
    (∀ (zipf : List Char → Int) (source_words : List (List Char)),
      validate_dictionaries (generate_guess_words zipf source_words)
        (generate_answer_words zipf (generate_guess_words zipf source_words)) ≠ [] →
      main_run zipf source_words = Except.error "Validation failed") :=
  ⟨fun h => List.ne_nil_of_mem (validate_mem_crass h),
   fun h => List.ne_nil_of_mem (validate_mem_menil_guess h),
   fun h => List.ne_nil_of_mem (validate_mem_menil_answer h),
   fun _ _ h => main_run_error_of_validate h⟩

/-- Witness for C4 amended at concrete lists. -/
theorem named_regression_words_enforced_witness :
    validate_dictionaries [] [] ≠ [] ∧
    validate_dictionaries [wd "CRASS", wd "MENIL"] [] ≠ [] :=
  ⟨(named_regression_words_enforced [] []).1 (by decide),
   (named_regression_words_enforced [wd "CRASS", wd "MENIL"] []).2.1 (by decide)⟩

/-! ### Legacy loader (C5) -/

theorem searchBracketArray_eq_none {cs : List Char} (h : '[' ∉ cs) :
    searchBracketArray cs = none := by
  induction cs with
  | nil => rfl
  | cons c rest ih =>
    rw [searchBracketArray, if_neg, ih fun hm => h (List.mem_cons_of_mem _ hm)]
    rintro ⟨rfl, -⟩
    exact h (List.mem_cons_self _ _)

/-- C5 counterexample: on an empty legacy file the loader raises the parse
error of line 96 — there is no bracketed array to find — rather than
returning an empty set. -/
theorem empty_legacy_file_is_parse_error :
    load_word_list_from_ts (wd "") = Except.error "Could not parse" := rfl

/-- C5 amended: an empty legacy file (and any file with no bracketed array)
raises the parse error; a legacy file that does contain a bracketed array
with no extractable words — including a realistic empty export — yields the
empty set without error. -/
theorem legacy_loader_empty_and_bracket_behaviour :
    load_word_list_from_ts (wd "") = Except.error "Could not parse" ∧
    load_word_list_from_ts (wd "[]") = Except.ok ∅ ∧
    load_word_list_from_ts (wd "export const GUESS_WORDS: string[] = [\n];\n") =
      Except.ok ∅ ∧
    (∀ content : List Char, '[' ∉ content →
      load_word_list_from_ts content = Except.error "Could not parse") := by
  refine ⟨rfl, by decide, by decide, fun content h => ?_⟩
  unfold load_word_list_from_ts
  rw [searchBracketArray_eq_none h]

/-- Witness for C5 amended at a concrete bracket-free file. -/
theorem legacy_loader_empty_and_bracket_behaviour_witness :
    load_word_list_from_ts (wd "no array here") = Except.error "Could not parse" :=
  legacy_loader_empty_and_bracket_behaviour.2.2.2 (wd "no array here") (by decide)

/-! ### Exclusion rule order (C6) -/

/-- C6 counterexample: "BONGS" scores Zipf 1.0, below every frequency
threshold, and is a likely plural; the answer pass runs the plural test
before the frequency test, so its rejection is counted as PLURAL and not as
TOO_RARE — the opposite of the claimed order. -/
theorem plural_recorded_before_too_rare :
    get_frequency_score zipfBong (wd "BONGS") < SPICE_ZIPF_THRESHOLD ∧
    is_likely_plural zipfBong (wd "BONGS") = true ∧
    answer_rejected_count zipfBong [wd "BONGS"] RejectReason.TOO_RARE = 0 ∧
    answer_rejected_count zipfBong [wd "BONGS"] RejectReason.PLURAL = 1 := by decide

/-- C6 amended: in the guess pass the rules are evaluated in the order
offensive → proper-noun → garbage → frequency (no plural rule), and the
first firing rule's reason is recorded; in the answer pass the order is
plural → frequency, so a word that is both below the spice threshold and a
likely plural is recorded as PLURAL, not TOO_RARE. -/
theorem exclusion_rule_order_first_reason (zipf : List Char → Int)
    (w : List Char) (freq : Int) :
    (is_offensive w = true → guessClassify w freq = some RejectReason.OFFENSIVE) ∧
    (is_offensive w = false → is_proper_noun w = true →
      guessClassify w freq = some RejectReason.PROPER_NOUN) ∧
    (is_offensive w = false → is_proper_noun w = false → is_scrabble_garbage w = true →
      guessClassify w freq = some RejectReason.GARBAGE) ∧
    (is_offensive w = false → is_proper_noun w = false → is_scrabble_garbage w = false →
      freq < MIN_ZIPF_GUESS → guessClassify w freq = some RejectReason.TOO_RARE) ∧
    (is_offensive w = false → is_proper_noun w = false → is_scrabble_garbage w = false →
      ¬ freq < MIN_ZIPF_GUESS → guessClassify w freq = none) ∧
    (is_likely_plural zipf w = true →
      answerClassify zipf w freq = some RejectReason.PLURAL) ∧
    (is_likely_plural zipf w = false → freq < SPICE_ZIPF_THRESHOLD →
      answerClassify zipf w freq = some RejectReason.TOO_RARE) ∧
    (is_likely_plural zipf w = false → ¬ freq < SPICE_ZIPF_THRESHOLD →
      answerClassify zipf w freq = none) := by
  refine ⟨fun h₁ => by simp [guessClassify, h₁],
          fun h₁ h₂ => by simp [guessClassify, h₁, h₂],
          fun h₁ h₂ h₃ => by simp [guessClassify, h₁, h₂, h₃],
          fun h₁ h₂ h₃ h₄ => by simp [guessClassify, h₁, h₂, h₃, h₄],
          fun h₁ h₂ h₃ h₄ => by simp [guessClassify, h₁, h₂, h₃, h₄],
          fun h₁ => by simp [answerClassify, h₁],
          fun h₁ h₂ => ?_,
          fun h₁ h₂ => by simp [answerClassify, h₁, h₂]⟩
  have h₃ : freq < MIN_ZIPF_ANSWER := by
    unfold SPICE_ZIPF_THRESHOLD at h₂
    unfold MIN_ZIPF_ANSWER
    omega
  simp [answerClassify, h₁, h₂, h₃]

/-- Witness for C6 amended: a blacklisted word fires first in the guess
pass, and a rare plural fires as PLURAL in the answer pass. -/
theorem exclusion_rule_order_first_reason_witness :
    guessClassify (wd "SLUTS") 400 = some RejectReason.OFFENSIVE ∧
    answerClassify zipfBong (wd "BONGS") 100 = some RejectReason.PLURAL :=
  ⟨(exclusion_rule_order_first_reason zipfHigh (wd "SLUTS") 400).1 (by decide),
   (exclusion_rule_order_first_reason zipfBong (wd "BONGS") 100).2.2.2.2.2.1 (by decide)⟩

/-! ### Plural heuristic (C7) -/

/-- C7: for 5-letter words, the plural heuristic fires exactly when the word
ends in "S", ends in none of the protected endings SS/US/IS/AS, is not in
the explicit non-plural exception list, and its 4-character stem scores
strictly above the fixed floor (Zipf 2.0); CROSS and GLASS are never
classified as plural. -/
theorem plural_heuristic_characterization (zipf : List Char → Int) :
    (∀ w : List Char, w.length = 5 →
      (is_likely_plural zipf w = true ↔
        (pyEndsWith w (wd "S") = true ∧
         pyEndsWith w (wd "SS") = false ∧ pyEndsWith w (wd "US") = false ∧
         pyEndsWith w (wd "IS") = false ∧ pyEndsWith w (wd "AS") = false ∧
         w ∉ non_plural_words ∧
         get_frequency_score zipf w.dropLast > 200))) ∧
    is_likely_plural zipf (wd "CROSS") = false ∧
    is_likely_plural zipf (wd "GLASS") = false := by
  refine ⟨fun w hw => ?_, rfl, rfl⟩
  have hlen : w.dropLast.length = 4 := by rw [List.length_dropLast, hw]
  unfold is_likely_plural
  rw [hlen]
  constructor
  · intro h
    split_ifs at h with h₁ h₂ h₃ h₄ h₅
    simp_all [Bool.or_eq_true, Bool.not_eq_true', not_or]
  · rintro ⟨e₁, e₂, e₃, e₄, e₅, e₆, e₇⟩
    simp [e₁, e₂, e₃, e₄, e₅, e₆, e₇]

/-- Witness for C7: the characterization classifies the concrete rare plural
"BONGS" (common stem "BONG") as a likely plural. -/
theorem plural_heuristic_characterization_witness :
    is_likely_plural zipfBong (wd "BONGS") = true :=
  ((plural_heuristic_characterization zipfBong).1 (wd "BONGS") (by decide)).mpr (by decide)

/-! ### Corpus loader (C9) -/

/-- C9 counterexample: an uppercase, alphabetic, 5-letter, all-consonant
corpus token is silently dropped by the loader — the regex of line 111 only
accepts lowercase tokens — although the claim says every 5-letter alphabetic
token is kept (uppercased). -/
theorem loader_drops_uppercase_alphabetic_token :
    (wd "BCDFG").length = 5 ∧
    (∀ c ∈ wd "BCDFG", c.isAlpha = true) ∧
    pyUpper (wd "BCDFG") = wd "BCDFG" ∧
    wd "BCDFG" ∉ load_all_five_letter_words_from_wordfreq [wd "BCDFG"] := by decide

/-- C9 amended: the loader returns exactly the uppercased tokens of exactly
5 lowercase ASCII letters; every other token — wrong length, non-alphabetic,
or not all lowercase — is silently dropped.  No shape-based rule applies: a
lowercase all-consonant token is included. -/
theorem wordfreq_loader_characterization (corpus : List (List Char)) (W : List Char) :
    (W ∈ load_all_five_letter_words_from_wordfreq corpus ↔
      ∃ w, w ∈ corpus ∧ w.length = 5 ∧ w.all isLowerAlpha = true ∧ W = pyUpper w) ∧
    wd "BCDFG" ∈ load_all_five_letter_words_from_wordfreq [wd "bcdfg"] := by
  constructor
  · unfold load_all_five_letter_words_from_wordfreq
    rw [List.mem_toFinset, List.mem_map]
    constructor
    · rintro ⟨w, hw, rfl⟩
      have hmem := List.mem_filter.mp hw
      have hcond := hmem.2
      simp only [Bool.and_eq_true, beq_iff_eq] at hcond
      exact ⟨w, hmem.1, hcond.1, hcond.2, rfl⟩
    · rintro ⟨w, hw, h₅, hl, rfl⟩
      exact ⟨w, List.mem_filter.mpr ⟨hw, by simp [h₅, hl]⟩, rfl⟩
  · decide

/-! ### Missing-word finder shape rules (C10) -/

theorem isAlpha_of_mem_CONSONANTS {c : Char} (h : c ∈ CONSONANTS) :
    c.isAlpha = true := by
  fin_cases h <;> rfl

theorem isAlpha_of_mem_VOWELS {c : Char} (h : c ∈ VOWELS) :
    c.isAlpha = true := by
  fin_cases h <;> rfl

/-- C10: the discovery utility's candidate filter applies shape-based
rejection: any 5-letter word whose uppercased form is all consonants or all
vowels is rejected by `is_valid_candidate`. -/
theorem finder_rejects_all_consonant_or_all_vowel (w : List Char)
    (h₅ : w.length = 5)
    (hshape : (pyUpper w).all (fun c => decide (c ∈ CONSONANTS)) = true ∨
              (pyUpper w).all (fun c => decide (c ∈ VOWELS)) = true) :
    is_valid_candidate w = false := by
  have hlen : (pyUpper w).length = 5 := by simp [pyUpper, h₅]
  have halpha : (pyUpper w).all Char.isAlpha = true := by
    rcases hshape with h | h
    · exact List.all_eq_true.mpr fun c hc =>
        isAlpha_of_mem_CONSONANTS (of_decide_eq_true (List.all_eq_true.mp h c hc))
    · exact List.all_eq_true.mpr fun c hc =>
        isAlpha_of_mem_VOWELS (of_decide_eq_true (List.all_eq_true.mp h c hc))
  have hor : ((pyUpper w).all (fun c => decide (c ∈ CONSONANTS)) ||
      (pyUpper w).all (fun c => decide (c ∈ VOWELS))) = true := by
    rcases hshape with h | h <;> simp [h]
  unfold is_valid_candidate
  rw [if_neg (by simp [hlen]), if_neg (by simp [halpha]), if_pos hor]

/-- Witness for C10: a concrete all-consonant word and a concrete lowercase
all-vowel word are both rejected. -/
theorem finder_rejects_all_consonant_or_all_vowel_witness :
    is_valid_candidate (wd "BCDFG") = false ∧
    is_valid_candidate (wd "aeiou") = false :=
  ⟨finder_rejects_all_consonant_or_all_vowel (wd "BCDFG") (by decide) (Or.inl (by decide)),
   finder_rejects_all_consonant_or_all_vowel (wd "aeiou") (by decide) (Or.inr (by decide))⟩

end Word5
